import Mathlib

/-!
Verification of the AutoReceipt merge/prefill resolution engine and its
verification-session workflow, as a shallow embedding of the Python source
(`backend/app/antrag.py`, `backend/app/main.py`, `backend/app/hinreise.py`,
`backend/app/ruckreise.py`, `backend/app/hotel.py`).
Python strings are Lean `String`s, Python `None` is `Option.none`, Python
dicts are association lists with unique keys, and filesystem effects are
tracked in explicit state records.
-/

namespace AutoReceipt

/-- Characters removed by Python's bare `str.strip()` on ASCII input. -/
def pyWhitespace : List Char := [' ', '\t', '\n', '\r', '\x0b', '\x0c']

/-- Python `s.strip(chars)`: remove any character of `cs` from both ends of `s`. -/
def pyStripChars (cs : List Char) (s : String) : String :=
  String.mk (List.rdropWhile (fun c => cs.contains c)
    (s.toList.dropWhile (fun c => cs.contains c)))

/-- Python `s.strip()` (no argument): strip whitespace from both ends. -/
def pyTrim (s : String) : String := pyStripChars pyWhitespace s

/-- Python `x or ''` for an optional string: `None` and `''` both give `''`,
any other string is returned unchanged. -/
def pyOrEmpty : Option String → String
  | none => ""
  | some s => s

/-- Lookup in a Python dict modelled as an association list (`d[k]` /
membership test); returns the stored value of the first matching key. -/
def dictFind {v : Type} (l : List (String × v)) (k : String) : Option v :=
  match l with
  | [] => none
  | kv :: rest => if kv.1 = k then some kv.2 else dictFind rest k

/-- Python `d.get(k)` on a dict whose stored values may themselves be `None`:
a missing key and a stored `None` both give `None`. -/
def dictGet (l : List (String × Option String)) (k : String) : Option String :=
  (dictFind l k).join

/-- Python `del d[k]` / `d.pop(k, None)`: remove the entry with the exact key. -/
def dictRemove {v : Type} (l : List (String × v)) (k : String) : List (String × v) :=
  l.filter (fun kv => kv.1 ≠ k)

/-- Python `d[k] = val` on a key already present: replace the value in place. -/
def dictSet {v : Type} (l : List (String × v)) (k : String) (val : v) :
    List (String × v) :=
  l.map (fun kv => if kv.1 = k then (k, val) else kv)

/-- `UserProfile` from `backend/app/antrag.py`: profile data received from the
frontend; holds only the five identity fields, never bank data. -/
structure UserProfile where
  full_name : String
  phone_number : String
  email : String
  postal_address : String
  institute : String
deriving Repr, DecidableEq

/-- `UserProfile.__init__` (`antrag.py` lines 32-40): `data` may be absent
(`None`), and each value may be missing or `None`; every attribute is
`(data.get(key) or '').strip()`. -/
def mkUserProfile (data : Option (List (String × Option String))) : UserProfile :=
  let d := data.getD []
  { full_name := pyTrim (pyOrEmpty (dictGet d "full_name"))
    phone_number := pyTrim (pyOrEmpty (dictGet d "phone_number"))
    email := pyTrim (pyOrEmpty (dictGet d "email"))
    postal_address := pyTrim (pyOrEmpty (dictGet d "postal_address"))
    institute := pyTrim (pyOrEmpty (dictGet d "institute")) }

/-- `antrag._get_prefilled_value` (`antrag.py` lines 77-96): the profile
value wins if truthy and non-blank after stripping; otherwise the stripped
Antrag value when truthy, else the empty string. -/
def getPrefilledValue (profile_value : String) (antrag_value : Option String) : String :=
  if profile_value ≠ "" ∧ pyTrim profile_value ≠ "" then pyTrim profile_value
  else
    match antrag_value with
    | some v => if v ≠ "" then pyTrim v else ""
    | none => ""

/-- Output key of the private-address field in `antrag.main` (line 170),
kept verbatim as the opaque PDF-internal identifier. -/
def addressFieldKey : String :=
  "þÿ\u0000P\u0000r\u0000i\u0000v\u0000a\u0000t\u0000e\u0000_\u0000A\u0000n\u0000s\u0000c\u0000h\u0000r\u0000i\u0000f\u0000t\u0000_\u0000S\u0000t\u0000r\u0000a\u0000ß\u0000e\u0000_\u0000P\u0000L\u0000Z\u0000_\u0000W\u0000o\u0000h\u0000n\u0000o\u0000r\u0000t"

/-- Output key of the institute field in `antrag.main` (line 171), kept
verbatim as the opaque PDF-internal identifier. -/
def instituteFieldKey : String :=
  "þÿ\u0000B\u0000e\u0000s\u0000c\u0000h\u0000ä\u0000f\u0000t\u0000i\u0000g\u0000u\u0000n\u0000g\u0000s\u0000s\u0000t\u0000e\u0000l\u0000l\u0000e\u0000I\u0000n\u0000s\u0000t\u0000i\u0000t\u0000u\u0000t\u0000_\u0000e\u0000i\u0000n\u0000s\u0000c\u0000h\u0000l\u0000_\u0000A\u0000n\u0000s\u0000c\u0000h\u0000r\u0000i\u0000f\u0000t"

/-- `antrag.main` (`antrag.py` lines 98-183), data part: builds
`abrechnung_json` from the profile and the fields extracted from the
Dienstreiseantrag PDF (`pdf_dict`), then applies the optional
`supervisor_name` override on the approval field. The surrounding PDF
read/write is the external `fillpdfs` collaborator. -/
def antragMain (user_profile : UserProfile) (pdf_dict : List (String × Option String))
    (supervisor_name : Option String) : List (String × Option String) :=
  let prefilled_name := getPrefilledValue user_profile.full_name (dictGet pdf_dict "Name Vorname")
  let prefilled_email := getPrefilledValue user_profile.email (dictGet pdf_dict "EMa Adresse")
  let prefilled_phone := getPrefilledValue user_profile.phone_number (dictGet pdf_dict "Telefon dienstlich")
  let prefilled_address := getPrefilledValue user_profile.postal_address (dictGet pdf_dict "Wohnort")
  let prefilled_institute := getPrefilledValue user_profile.institute (dictGet pdf_dict "Institut")
  let antrag_kreditinstitut := dictGet pdf_dict "Kreditinstitut"
  let antrag_bic := dictGet pdf_dict "BIC"
  let antrag_iban := dictGet pdf_dict "IBAN"
  let kostenstelle := pyOrEmpty (dictGet pdf_dict "Kostenstelle")
  let datum_6 := pyOrEmpty (dictGet pdf_dict "Datum_6")
  let abrechnung_json : List (String × Option String) :=
    [("AntragstellerIn_Name_Vorname", some prefilled_name),
     ("E-Mail-dienstlich", some prefilled_email),
     ("Telefon_dienstlich", some prefilled_phone),
     (addressFieldKey, some prefilled_address),
     (instituteFieldKey, some prefilled_institute),
     ("Kreditinstitut", antrag_kreditinstitut),
     ("BIC", antrag_bic),
     ("BAN", antrag_iban),
     ("Tagegeld", some "nein"),
     ("Drittmittelprojekt", some ("P" ++ kostenstelle)),
     ("Genehmigung_der_Dienstreise_am__von", some (datum_6 ++ " "))]
  match supervisor_name with
  | none => abrechnung_json
  | some sn =>
    if sn ≠ "" then
      let current_value := pyOrEmpty (dictGet abrechnung_json "Genehmigung_der_Dienstreise_am__von")
      dictSet abrechnung_json "Genehmigung_der_Dienstreise_am__von"
        (some (current_value.take 11 ++ sn))
    else abrechnung_json

/-- Python `k.lower()` on ASCII input, as a character map. -/
def pyLower (s : String) : String := String.mk (s.toList.map Char.toLower)

/-- Forbidden bank keys checked at profile ingestion (`main.py` line 193 and
line 465): `forbidden_fields = ['bic', 'iban', 'kreditinstitut', 'bank']`. -/
def forbidden_fields : List String := ["bic", "iban", "kreditinstitut", "bank"]

/-- Profile ingestion loop of `extract_trip` (`main.py` lines 192-197) and
`process_trip` (lines 464-469): for each forbidden field name, if it occurs
among the lower-cased keys of the parsed profile, `parsed_user_profile.pop(field, None)`
is called with the lower-case literal itself. -/
def stripForbiddenProfileFields (parsed_user_profile : List (String × Option String)) :
    List (String × Option String) :=
  forbidden_fields.foldl
    (fun acc field =>
      if (acc.map (fun kv => pyLower kv.1)).contains field then dictRemove acc field
      else acc)
    parsed_user_profile

/-- Per-session record stored in `verification_sessions` (`main.py` lines
235-245): the session's temporary directory plus the three extracted-data
snapshots (the extractor instances' own mutable state is carried by the
snapshots for the fallback at lines 297-322). -/
structure Session where
  temp_dir : String
  hinreise_data : List (String × Option String)
  ruckreise_data : List (String × Option String)
  hotel_data : List (String × Option String)
deriving Repr, DecidableEq

/-- Process-wide state touched by the FastAPI handlers in `main.py`: the
in-memory session table and the filesystem locations the handlers create
and delete. -/
structure ServerState where
  verification_sessions : List (String × Session)
  temp_dirs : List String
  uploads_antrag_exists : Bool
  filled_form_exists : Bool
  output_exists : Bool
deriving Repr, DecidableEq

/-- Result of a `submit_verified` call (`main.py` lines 271-380). -/
inductive SubmitResult where
  /-- HTTP 200 with `status="ok"`. -/
  | ok
  /-- `HTTPException(status_code=404, detail="Session not found or expired...")`. -/
  | sessionNotFound
  /-- `status="error"`, "Filled form was not generated" (lines 360-366). -/
  | formNotGenerated
  /-- `status="error"`, "An unexpected error occurred" (lines 368-380). -/
  | unexpectedError
deriving Repr, DecidableEq

/-- Modelled from the spec: the three `fill_with_verified_data` calls
(`main.py` lines 303, 313, 323) invoke extractor methods whose definitions
are not part of the available source; per spec section 4.3 they materialize
the verified data into `templates/filled_form.pdf`. Their combined outcome
is abstracted: `.error ()` means one of the calls raised (caught at line
368), `.ok b` means all calls returned and `b` tells whether
`filled_form.pdf` exists afterwards (the check at line 327). -/
def FillOutcome : Type := Except Unit Bool

/-- `submit_verified` (`main.py` lines 271-380): look up the session (404
when absent), run the three fill steps, and on success copy the artifact to
the output directory, delete the uploads directory, the filled form, the
session's temporary directory and the session record. On an exception the
session's temporary directory and record are also deleted; when the filled
form was not generated the session is left in place. -/
def submit_verified (st : ServerState) (session_id : String) (fill : FillOutcome) :
    SubmitResult × ServerState :=
  match dictFind st.verification_sessions session_id with
  | none => (.sessionNotFound, st)
  | some session =>
    match fill with
    | .error _ =>
      (.unexpectedError,
        { st with
          verification_sessions := dictRemove st.verification_sessions session_id,
          temp_dirs := st.temp_dirs.filter (fun d => d ≠ session.temp_dir) })
    | .ok form_created =>
      if form_created then
        (.ok,
          { verification_sessions := dictRemove st.verification_sessions session_id,
            temp_dirs := st.temp_dirs.filter (fun d => d ≠ session.temp_dir),
            uploads_antrag_exists := false,
            filled_form_exists := false,
            output_exists := true })
      else (.formNotGenerated, st)

/-- Filesystem locations written by one `extract_trip` request (`main.py`
lines 115-268): the freshly created session temporary directory (holding the
saved flight and hotel receipt files) and the travel-request form saved to
`uploads/Dienstreiseantrag.pdf`. -/
structure ExtractFs where
  temp_dir_exists : Bool
  uploads_antrag_exists : Bool
deriving Repr, DecidableEq

/-- Response status of `extract_trip`. -/
inductive ExtractStatus where
  | ok
  | error
deriving Repr, DecidableEq

/-- Filesystem effect of `extract_trip` (`main.py` lines 137-268):
`mkdtemp` creates the temporary directory, the Antrag form is saved under
`uploads/`, the receipts are saved inside the temporary directory, then the
extraction pipeline runs; `pipeline_raises` abstracts whether the pipeline
(lines 203-222) raises. The handler's except branches (lines 224-232 and
260-268) run `shutil.rmtree(temp_dir, ignore_errors=True)` and return an
error response; no branch removes `uploads/Dienstreiseantrag.pdf`. -/
def extract_trip (pipeline_raises : Bool) : ExtractStatus × ExtractFs :=
  let fs : ExtractFs := { temp_dir_exists := true, uploads_antrag_exists := true }
  if pipeline_raises then
    (.error, { fs with temp_dir_exists := false })
  else
    (.ok, fs)

/-- Python values produced by `json.loads`: null, booleans, numbers,
strings, lists and objects (number contents abstracted as an integer; the
claims never inspect numerals). -/
inductive PyJson where
  | null
  | bool (b : Bool)
  | num (n : Int)
  | str (s : String)
  | list (xs : List PyJson)
  | obj (kvs : List (String × PyJson))

/-- Python truthiness of a decoded JSON value (`if parsed_response`):
`None`, `False`, `0`, `''`, `[]` and `{}` are falsy. -/
def pyTruthy : PyJson → Bool
  | .null => false
  | .bool b => b
  | .num n => !(n == 0)
  | .str s => !(s == "")
  | .list xs => !xs.isEmpty
  | .obj kvs => !kvs.isEmpty

/-- Python `parsed_response[0]`: succeeds with the head of a non-empty list
or the first character of a non-empty string; raises (`none`) on anything
else. -/
def pyIndexZero : PyJson → Option PyJson
  | .list (x :: _) => some x
  | .list [] => none
  | .str s => if s = "" then none else some (.str (s.take 1))
  | _ => none

/-- Markdown code-fence stripping shared by the three extractors
(`hinreise.py` line 201, `ruckreise.py` line 189, `hotel.py` line 170):
Python `text.strip('```json\n').strip('\n```')`, which removes the
characters of each set from both ends. -/
def stripCodeFence (s : String) : String :=
  pyStripChars ['\n', '`'] (pyStripChars ['`', 'j', 's', 'o', 'n', '\n'] s)

/-- Response post-processing shared by `hinreise.main` (lines 198-213),
`ruckreise.main` (lines 186-202) and `hotel.main` (lines 168-190):
given the optional vision-model response text and the behaviour of
`json.loads` (`none` models a `JSONDecodeError`), produce `.ok` with the
accepted extraction, or `.error ()` where the Python code would raise an
uncaught indexing exception. An absent response, a decode error, or a falsy
parse yields the empty dict; a truthy parse is indexed at `[0]`. -/
def extractFromResponse (gemini_response_text : Option String)
    (loads : String → Option PyJson) : Except Unit PyJson :=
  match gemini_response_text with
  | none => .ok (.obj [])
  | some text =>
    let cleaned_response := stripCodeFence text
    match loads cleaned_response with
    | none => .ok (.obj [])
    | some parsed_response =>
      if pyTruthy parsed_response then
        match pyIndexZero parsed_response with
        | some x => .ok x
        | none => .error ()
      else .ok (.obj [])

/-- Validation warning record. Modelled from the spec: the resolver's
receipt-field pass (spec sections 4.2 rule 4 and 4.2 Errors) is part of the
finalize-time fill (`fill_with_verified_data`), whose definition is not in
the available source. -/
structure ValidationWarning where
  field : String
deriving Repr, DecidableEq

/-- Modelled from the spec: receipt-derived fields "pass through unchanged
from the vision extraction, except: monetary fields on a journey leg must
never be left empty — if absent, resolver must flag this as a validation
warning (not silently accepted)" (spec section 4.2 rule 4; section 7 case
c). `monetary_fields` are the category's hard-required monetary field
names; the extraction passes through unchanged while every monetary field
that is empty in all sources is flagged. -/
def resolveReceiptFields (monetary_fields : List String)
    (extraction : List (String × Option String)) :
    List (String × Option String) × List ValidationWarning :=
  (extraction,
   (monetary_fields.filter (fun f => pyTrim (pyOrEmpty (dictGet extraction f)) = "")).map
     (fun f => ⟨f⟩))

/-- Head of a `dropWhile` result never satisfies the predicate. -/
theorem dropWhile_head?_false {p : Char → Bool} {l : List Char} {c : Char}
    (h : (l.dropWhile p).head? = some c) : p c = false := by
  rcases hx : l.dropWhile p with _ | ⟨a, u⟩
  · rw [hx] at h; cases h
  · rw [hx] at h
    have ha : a = c := by simpa using h
    have hn : l.dropWhile p ≠ [] := by rw [hx]; simp
    have hhead := List.head_dropWhile_not p l hn
    simp only [hx, List.head_cons] at hhead
    rwa [← ha]

/-- The first character of a `pyStripChars` result is not one of the
stripped characters. -/
theorem pyStripChars_head?_false {cs : List Char} {s : String} {c : Char}
    (h : (pyStripChars cs s).toList.head? = some c) : cs.contains c = false := by
  have h2 : (List.rdropWhile (fun c => cs.contains c)
      (s.toList.dropWhile (fun c => cs.contains c))).head? = some c := h
  obtain ⟨t, ht⟩ := List.rdropWhile_prefix (fun c => cs.contains c)
      (s.toList.dropWhile (fun c => cs.contains c))
  have h3 : (s.toList.dropWhile (fun c => cs.contains c)).head? = some c := by
    rw [← ht, List.head?_append, h2]
    rfl
  exact dropWhile_head?_false h3

/-- The last character of a `pyStripChars` result is not one of the
stripped characters. -/
theorem pyStripChars_getLast?_false {cs : List Char} {s : String} {c : Char}
    (h : (pyStripChars cs s).toList.getLast? = some c) : cs.contains c = false := by
  have h2 : ((((s.toList.dropWhile (fun c => cs.contains c)).reverse).dropWhile
      (fun c => cs.contains c)).reverse).getLast? = some c := h
  rw [List.getLast?_reverse] at h2
  exact dropWhile_head?_false h2

/-- Resolution policy of `_get_prefilled_value`: a profile value that is
non-blank after stripping wins as its stripped form; otherwise the stripped
Antrag value is used, the empty string standing for an absent value. -/
theorem getPrefilledValue_policy (pv : String) (av : Option String) :
    (pyTrim pv ≠ "" → getPrefilledValue pv av = pyTrim pv) ∧
    (pyTrim pv = "" → getPrefilledValue pv av = pyTrim (pyOrEmpty av)) := by
  constructor
  · intro h
    have hpv : pv ≠ "" := by
      intro he
      rw [he] at h
      exact h rfl
    unfold getPrefilledValue
    rw [if_pos ⟨hpv, h⟩]
  · intro h
    have hstep : getPrefilledValue pv av
        = match av with
          | some v => if v ≠ "" then pyTrim v else ""
          | none => "" := by
      unfold getPrefilledValue
      rw [if_neg (by tauto)]
    rw [hstep]
    cases av with
    | none => decide
    | some v =>
      by_cases hv : v = ""
      · simp only [pyOrEmpty, hv]
        decide
      · simp [pyOrEmpty, hv]

/-- autoreceipt claim C1: each resolved identity field produced by
`antrag.main` comes from `_get_prefilled_value` applied to the profile
attribute and the corresponding request-form extraction, and
`_get_prefilled_value` resolves to the trimmed profile value when that is
non-empty after trimming, else to the trimmed request-extraction value,
which is the empty string when the extraction value is absent or trims to
empty. -/
theorem identity_prefill_resolution (prof : UserProfile)
    (pdf_dict : List (String × Option String)) (supervisor_name : Option String) :
    (dictFind (antragMain prof pdf_dict supervisor_name) "AntragstellerIn_Name_Vorname"
      = some (some (getPrefilledValue prof.full_name (dictGet pdf_dict "Name Vorname")))) ∧
    (dictFind (antragMain prof pdf_dict supervisor_name) "E-Mail-dienstlich"
      = some (some (getPrefilledValue prof.email (dictGet pdf_dict "EMa Adresse")))) ∧
    (dictFind (antragMain prof pdf_dict supervisor_name) "Telefon_dienstlich"
      = some (some (getPrefilledValue prof.phone_number (dictGet pdf_dict "Telefon dienstlich")))) ∧
    (dictFind (antragMain prof pdf_dict supervisor_name) addressFieldKey
      = some (some (getPrefilledValue prof.postal_address (dictGet pdf_dict "Wohnort")))) ∧
    (dictFind (antragMain prof pdf_dict supervisor_name) instituteFieldKey
      = some (some (getPrefilledValue prof.institute (dictGet pdf_dict "Institut")))) ∧
    (∀ pv av,
      (pyTrim pv ≠ "" → getPrefilledValue pv av = pyTrim pv) ∧
      (pyTrim pv = "" → getPrefilledValue pv av = pyTrim (pyOrEmpty av)) ∧
      (pyTrim pv = "" → pyTrim (pyOrEmpty av) = "" → getPrefilledValue pv av = "")) := by
  refine ⟨?_, ?_, ?_, ?_, ?_, ?_⟩
  case _ | _ | _ | _ | _ =>
    cases supervisor_name with
    | none => rfl
    | some sn =>
      by_cases hsn : sn = "" <;>
        simp [antragMain, dictFind, dictSet, hsn, addressFieldKey, instituteFieldKey]
  case _ =>
    intro pv av
    refine ⟨(getPrefilledValue_policy pv av).1, (getPrefilledValue_policy pv av).2, ?_⟩
    intro h1 h2
    rw [(getPrefilledValue_policy pv av).2 h1, h2]

/-- autoreceipt claim C1 witness: the spec scenario — profile name
"Jane Doe" beats the scanned value, an empty profile falls back to it. -/
theorem identity_prefill_resolution_witness :
    dictFind
        (antragMain (mkUserProfile (some [("full_name", some "Jane Doe")]))
          [("Name Vorname", some "J. Doe (scanned)")] none)
        "AntragstellerIn_Name_Vorname"
      = some (some (getPrefilledValue "Jane Doe" (some "J. Doe (scanned)"))) ∧
    getPrefilledValue "Jane Doe" (some "J. Doe (scanned)") = "Jane Doe" ∧
    getPrefilledValue "" (some "J. Doe (scanned)") = "J. Doe (scanned)" :=
  ⟨(identity_prefill_resolution (mkUserProfile (some [("full_name", some "Jane Doe")]))
      [("Name Vorname", some "J. Doe (scanned)")] none).1,
   ((identity_prefill_resolution (mkUserProfile (some [("full_name", some "Jane Doe")]))
      [("Name Vorname", some "J. Doe (scanned)")] none).2.2.2.2.2 "Jane Doe"
      (some "J. Doe (scanned)")).1 (by decide),
   by
    have h := ((identity_prefill_resolution
        (mkUserProfile (some [("full_name", some "Jane Doe")]))
        [("Name Vorname", some "J. Doe (scanned)")] none).2.2.2.2.2 ""
        (some "J. Doe (scanned)")).2.1 (by decide)
    rw [h]
    decide⟩

/-- autoreceipt claim C2: the three resolved bank fields of `antrag.main`
(the entries written under `Kreditinstitut`, `BIC` and `BAN`) always equal
the values read from the request-form extraction, for every profile input —
including a raw profile dictionary that invalidly supplies bank data —
because the profile is never consulted for them. -/
theorem bank_fields_from_antrag_only (data : Option (List (String × Option String)))
    (pdf_dict : List (String × Option String)) (supervisor_name : Option String) :
    (dictFind (antragMain (mkUserProfile data) pdf_dict supervisor_name) "Kreditinstitut"
      = some (dictGet pdf_dict "Kreditinstitut")) ∧
    (dictFind (antragMain (mkUserProfile data) pdf_dict supervisor_name) "BIC"
      = some (dictGet pdf_dict "BIC")) ∧
    (dictFind (antragMain (mkUserProfile data) pdf_dict supervisor_name) "BAN"
      = some (dictGet pdf_dict "IBAN")) := by
  refine ⟨?_, ?_, ?_⟩ <;>
    cases supervisor_name with
    | none => rfl
    | some sn =>
      by_cases hsn : sn = "" <;>
        simp [antragMain, dictFind, dictSet, hsn, addressFieldKey, instituteFieldKey]

/-- autoreceipt claim C6: a non-empty `supervisor_name` override rewrites
the approval field to the first 11 characters of the previously computed
value (`Datum_6` plus a trailing space) followed by the override. -/
theorem supervisor_override_preserves_date (prof : UserProfile)
    (pdf_dict : List (String × Option String)) (sn : String) (h : sn ≠ "") :
    dictFind (antragMain prof pdf_dict (some sn)) "Genehmigung_der_Dienstreise_am__von"
      = some (some (((pyOrEmpty (dictGet pdf_dict "Datum_6") ++ " ").take 11) ++ sn)) := by
  simp [antragMain, dictFind, dictSet, dictGet, h, addressFieldKey, instituteFieldKey, pyOrEmpty]

/-- autoreceipt claim C6 witness: date "01.02.2024" plus the trailing
space is the 11-character prefix kept in front of the override. -/
theorem supervisor_override_preserves_date_witness :
    dictFind
        (antragMain (mkUserProfile none) [("Datum_6", some "01.02.2024")] (some "Dr. Weber"))
        "Genehmigung_der_Dienstreise_am__von"
      = some (some "01.02.2024 Dr. Weber") := by
  have h := supervisor_override_preserves_date (mkUserProfile none)
    [("Datum_6", some "01.02.2024")] "Dr. Weber" (by decide)
  rw [h]
  rfl

/-- autoreceipt claim C7: the resolved `Drittmittelprojekt` field is the
literal "P" concatenated with the extracted `Kostenstelle` value, and "P"
alone when that value is absent; the computation is total. -/
theorem drittmittelprojekt_from_kostenstelle (prof : UserProfile)
    (pdf_dict : List (String × Option String)) (supervisor_name : Option String) :
    (∀ v, dictGet pdf_dict "Kostenstelle" = some v →
      dictFind (antragMain prof pdf_dict supervisor_name) "Drittmittelprojekt"
        = some (some ("P" ++ v))) ∧
    (dictGet pdf_dict "Kostenstelle" = none →
      dictFind (antragMain prof pdf_dict supervisor_name) "Drittmittelprojekt"
        = some (some "P")) := by
  constructor
  · intro v hv
    cases supervisor_name with
    | none => simp [antragMain, dictFind, hv, pyOrEmpty, addressFieldKey, instituteFieldKey]
    | some sn =>
      by_cases hsn : sn = "" <;>
        simp [antragMain, dictFind, dictSet, hv, hsn, pyOrEmpty, addressFieldKey, instituteFieldKey]
  · intro hv
    cases supervisor_name with
    | none => simp [antragMain, dictFind, hv, pyOrEmpty, addressFieldKey, instituteFieldKey]
    | some sn =>
      by_cases hsn : sn = "" <;>
        simp [antragMain, dictFind, dictSet, hv, hsn, pyOrEmpty, addressFieldKey, instituteFieldKey]

/-- autoreceipt claim C7 witness: the spec scenario — cost-center "4711"
resolves to "P4711". -/
theorem drittmittelprojekt_from_kostenstelle_witness :
    dictFind (antragMain (mkUserProfile none) [("Kostenstelle", some "4711")] none)
        "Drittmittelprojekt"
      = some (some "P4711") :=
  (drittmittelprojekt_from_kostenstelle (mkUserProfile none)
    [("Kostenstelle", some "4711")] none).1 "4711" rfl

/-- autoreceipt claim C10: every attribute of a freshly constructed
`UserProfile` carries no leading or trailing whitespace, and a missing or
`None` input value (including the no-dictionary case) yields the empty
string. -/
theorem user_profile_normalized (data : Option (List (String × Option String))) :
    (∀ f ∈ [(mkUserProfile data).full_name, (mkUserProfile data).phone_number,
            (mkUserProfile data).email, (mkUserProfile data).postal_address,
            (mkUserProfile data).institute],
      (∀ c, f.toList.head? = some c → pyWhitespace.contains c = false) ∧
      (∀ c, f.toList.getLast? = some c → pyWhitespace.contains c = false)) ∧
    (dictGet (data.getD []) "full_name" = none → (mkUserProfile data).full_name = "") ∧
    (dictGet (data.getD []) "phone_number" = none → (mkUserProfile data).phone_number = "") ∧
    (dictGet (data.getD []) "email" = none → (mkUserProfile data).email = "") ∧
    (dictGet (data.getD []) "postal_address" = none → (mkUserProfile data).postal_address = "") ∧
    (dictGet (data.getD []) "institute" = none → (mkUserProfile data).institute = "") := by
  constructor
  · intro f hf
    have hcases : f = pyTrim (pyOrEmpty (dictGet (data.getD []) "full_name")) ∨
        f = pyTrim (pyOrEmpty (dictGet (data.getD []) "phone_number")) ∨
        f = pyTrim (pyOrEmpty (dictGet (data.getD []) "email")) ∨
        f = pyTrim (pyOrEmpty (dictGet (data.getD []) "postal_address")) ∨
        f = pyTrim (pyOrEmpty (dictGet (data.getD []) "institute")) := by
      simpa [mkUserProfile] using hf
    rcases hcases with h | h | h | h | h <;>
      exact h ▸ ⟨fun c hc => pyStripChars_head?_false hc,
        fun c hc => pyStripChars_getLast?_false hc⟩
  · refine ⟨?_, ?_, ?_, ?_, ?_⟩ <;>
      · intro h
        simp [mkUserProfile, h, pyOrEmpty]
        rfl

/-- autoreceipt claim C10 witness: a padded name is stripped and a `None`
email is normalized to the empty string. -/
theorem user_profile_normalized_witness :
    pyWhitespace.contains 'J' = false ∧
    (mkUserProfile (some [("full_name", some "  Jane Doe "), ("email", none)])).email = "" :=
  ⟨((user_profile_normalized (some [("full_name", some "  Jane Doe "), ("email", none)])).1
      (mkUserProfile (some [("full_name", some "  Jane Doe "), ("email", none)])).full_name
      (by simp)).1 'J' (by decide),
   (user_profile_normalized (some [("full_name", some "  Jane Doe "), ("email", none)])).2.2.2.1
     (by decide)⟩

/-- Removing a key from a dict makes subsequent lookup of that key fail. -/
theorem dictFind_dictRemove_self {v : Type} (l : List (String × v)) (k : String) :
    dictFind (dictRemove l k) k = none := by
  induction l with
  | nil => rfl
  | cons kv rest ih =>
    by_cases h : kv.1 = k
    · simpa [dictRemove, List.filter_cons, h] using ih
    · simpa [dictRemove, List.filter_cons, h, dictFind] using ih

/-- autoreceipt claim C3: when `submit_verified` on an existing session id
returns the success status, the session's temporary directory is no longer
among the existing temporary directories, its record is gone from the
session table, and a second `submit_verified` with the same id answers
`SessionNotFound` (HTTP 404) whatever its fill step would do. -/
theorem submit_verified_finalize_once (st : ServerState) (session_id : String)
    (fill : FillOutcome) (sess : Session)
    (hfound : dictFind st.verification_sessions session_id = some sess)
    (hok : (submit_verified st session_id fill).1 = .ok) :
    dictFind (submit_verified st session_id fill).2.verification_sessions session_id = none ∧
    sess.temp_dir ∉ (submit_verified st session_id fill).2.temp_dirs ∧
    (∀ fill2, (submit_verified (submit_verified st session_id fill).2 session_id fill2).1
      = .sessionNotFound) := by
  cases fill with
  | error e =>
    exfalso
    unfold submit_verified at hok
    rw [hfound] at hok
    simp at hok
  | ok form_created =>
    cases form_created with
    | false =>
      exfalso
      unfold submit_verified at hok
      rw [hfound] at hok
      simp at hok
    | true =>
      have hval : (submit_verified st session_id (.ok true)).2
          = { verification_sessions := dictRemove st.verification_sessions session_id,
              temp_dirs := st.temp_dirs.filter (fun d => d ≠ sess.temp_dir),
              uploads_antrag_exists := false,
              filled_form_exists := false,
              output_exists := true } := by
        unfold submit_verified
        rw [hfound]
        rfl
      rw [hval]
      refine ⟨dictFind_dictRemove_self _ _, ?_, ?_⟩
      · simp [List.mem_filter]
      · intro fill2
        unfold submit_verified
        rw [dictFind_dictRemove_self]

/-- autoreceipt claim C3 witness: a concrete one-session server state is
finalized by a successful submit, and the second submit gets 404. -/
theorem submit_verified_finalize_once_witness :
    dictFind
        (submit_verified
          { verification_sessions := [("sid1", ⟨"tmp1", [], [], []⟩)],
            temp_dirs := ["tmp1"], uploads_antrag_exists := true,
            filled_form_exists := true, output_exists := false }
          "sid1" (.ok true)).2.verification_sessions "sid1" = none ∧
    "tmp1" ∉
      (submit_verified
          { verification_sessions := [("sid1", ⟨"tmp1", [], [], []⟩)],
            temp_dirs := ["tmp1"], uploads_antrag_exists := true,
            filled_form_exists := true, output_exists := false }
          "sid1" (.ok true)).2.temp_dirs ∧
    (submit_verified
        (submit_verified
          { verification_sessions := [("sid1", ⟨"tmp1", [], [], []⟩)],
            temp_dirs := ["tmp1"], uploads_antrag_exists := true,
            filled_form_exists := true, output_exists := false }
          "sid1" (.ok true)).2
        "sid1" (.ok true)).1 = .sessionNotFound := by
  have h := submit_verified_finalize_once
    { verification_sessions := [("sid1", ⟨"tmp1", [], [], []⟩)],
      temp_dirs := ["tmp1"], uploads_antrag_exists := true,
      filled_form_exists := true, output_exists := false }
    "sid1" (.ok true) ⟨"tmp1", [], [], []⟩ rfl (by decide)
  exact ⟨h.1, h.2.1, h.2.2 (.ok true)⟩

/-- autoreceipt claim C4 evaluated at the failing input: an `extract_trip`
request whose extraction pipeline raises returns the error status with the
session temporary directory removed, but the travel-request form saved to
`uploads/Dienstreiseantrag.pdf` is still on disk — an error path that
leaves an uploaded user document behind, contradicting the claim and the
module's own privacy docstring. -/
theorem extract_trip_error_leaves_upload :
    (extract_trip true).1 = .error ∧
    (extract_trip true).2.temp_dir_exists = false ∧
    (extract_trip true).2.uploads_antrag_exists = true :=
  ⟨rfl, rfl, rfl⟩

/-- autoreceipt claim C5 evaluated at the failing input: an upper-case
`"BIC"` key passes the case-insensitive membership test, but
`pop('bic', None)` removes nothing, so the forbidden key survives profile
ingestion; the same key in lower case is stripped, showing the intended
behaviour the code misses. -/
theorem forbidden_profile_key_survives :
    stripForbiddenProfileFields [("BIC", some "DEUTDEFFXXX")]
        = [("BIC", some "DEUTDEFFXXX")] ∧
    pyLower "BIC" = "bic" ∧
    "bic" ∈ forbidden_fields ∧
    stripForbiddenProfileFields [("bic", some "DEUTDEFFXXX")] = [] := by
  refine ⟨by decide, by decide, by decide, by decide⟩

/-- autoreceipt claim C8: the shared extractor response handling returns
the first element of a response that parses (after code-fence stripping)
to a non-empty JSON list, and returns the empty mapping without raising
when the response is absent, fails to parse, or parses to the empty
list. -/
theorem receipt_extraction_first_element (resp : Option String)
    (loads : String → Option PyJson) :
    (∀ text x xs, resp = some text →
      loads (stripCodeFence text) = some (.list (x :: xs)) →
      extractFromResponse resp loads = .ok x) ∧
    (resp = none → extractFromResponse resp loads = .ok (.obj [])) ∧
    (∀ text, resp = some text → loads (stripCodeFence text) = none →
      extractFromResponse resp loads = .ok (.obj [])) ∧
    (∀ text, resp = some text → loads (stripCodeFence text) = some (.list []) →
      extractFromResponse resp loads = .ok (.obj [])) := by
  refine ⟨?_, ?_, ?_, ?_⟩
  · intro text x xs hr hl
    subst hr
    simp [extractFromResponse, hl, pyTruthy, pyIndexZero]
  · intro hr
    subst hr
    rfl
  · intro text hr hl
    subst hr
    simp [extractFromResponse, hl]
  · intro text hr hl
    subst hr
    simp [extractFromResponse, hl, pyTruthy]

/-- autoreceipt claim C8 witness: a fenced two-element list yields its
first element; an absent response yields the empty mapping. -/
theorem receipt_extraction_first_element_witness :
    extractFromResponse (some "```json\n[1, 2]\n```")
        (fun s => if s = "[1, 2]" then some (.list [.num 1, .num 2]) else none)
      = .ok (.num 1) ∧
    extractFromResponse none
        (fun s => if s = "[1, 2]" then some (.list [.num 1, .num 2]) else none)
      = .ok (.obj []) :=
  ⟨(receipt_extraction_first_element (some "```json\n[1, 2]\n```")
      (fun s => if s = "[1, 2]" then some (.list [.num 1, .num 2]) else none)).1
      "```json\n[1, 2]\n```" (.num 1) [.num 2] rfl rfl,
   (receipt_extraction_first_element none
      (fun s => if s = "[1, 2]" then some (.list [.num 1, .num 2]) else none)).2.1 rfl⟩

/-- autoreceipt claim C9 (against the spec-modelled resolver): a monetary
field of a journey leg that is empty in all sources is flagged with a
validation warning, and the warning list is non-empty rather than the
emptiness being accepted silently. -/
theorem monetary_field_warning (monetary_fields : List String)
    (extraction : List (String × Option String)) (f : String)
    (hmem : f ∈ monetary_fields)
    (hempty : pyTrim (pyOrEmpty (dictGet extraction f)) = "") :
    ValidationWarning.mk f ∈ (resolveReceiptFields monetary_fields extraction).2 ∧
    (resolveReceiptFields monetary_fields extraction).2 ≠ [] := by
  have hin : ValidationWarning.mk f ∈ (resolveReceiptFields monetary_fields extraction).2 := by
    simp only [resolveReceiptFields, List.mem_map, List.mem_filter]
    exact ⟨f, ⟨hmem, by simp [hempty]⟩, rfl⟩
  exact ⟨hin, by intro hnil; rw [hnil] at hin; cases hin⟩

/-- autoreceipt claim C9 witness: a lodging extraction that omits the
accommodation-cost monetary field gets a validation warning for it. -/
theorem monetary_field_warning_witness :
    ValidationWarning.mk "Geschaeftskort_Kosten_Unterkunft"
        ∈ (resolveReceiptFields ["Geschaeftskort_Kosten_Unterkunft"] []).2 ∧
    (resolveReceiptFields ["Geschaeftskort_Kosten_Unterkunft"] []).2 ≠ [] :=
  monetary_field_warning ["Geschaeftskort_Kosten_Unterkunft"] []
    "Geschaeftskort_Kosten_Unterkunft" (by decide) (by decide)

end AutoReceipt
